import Mathlib

/-
Verification of the DNS wire-format codec (udp_packet.rs, dns_message.rs,
conversions.rs, and the build_enum macro of lib.rs).

Modelling conventions:
 - Rust u8/u16/u32 values are Nat; the code never overflows where values
   enter arithmetic (labels are <= 191 before the +1, flag fields are masked),
   and where a cast `as u8` occurs it is guarded by a bound, so no explicit
   % 2^w is needed except where the source masks explicitly.
 - A fallible Rust call returns Res: ok, a typed UdpPacketError, or panicked
   (Rust panic: an out-of-range raw index, an .unwrap() on Err/None, an
   .expect, or an explicit panic! call).
 - The diagnostic String payloads of the error variants (domain_name,
   description, the FromUtf8 source) are elided; the discriminating data
   (the Malformation source, the OutOfBounds length/index, the erroneous
   bytes) is kept.
 - Rust String values are modelled through their char list (String.data);
   byte lengths and byte sequences use an explicit UTF-8 encoder, so that
   str::len (a byte count) and String::pop (a char pop) are both faithful.
-/

set_option maxRecDepth 100000

namespace Dns

/-- UDP_PACKET_MAX_SIZE_BYTES of udp_packet.rs. -/
def UDP_PACKET_MAX_SIZE_BYTES : Nat := 512

/-- NAME_MAX_LENGTH_BYTES of udp_packet.rs. -/
def NAME_MAX_LENGTH_BYTES : Nat := 255

/-- LABEL_MAX_LENGTH_BYTES of udp_packet.rs. -/
def LABEL_MAX_LENGTH_BYTES : Nat := 63

/-- MAX_JUMPS of udp_packet.rs. -/
def MAX_JUMPS : Nat := 10

/-- The Malformation enum of udp_packet.rs. -/
inductive Malformation where
  | LabelTooLong
  | NameTooLong
  | InvalidCharset
deriving DecidableEq, Repr

/-- The UdpPacketError enum of udp_packet.rs (NetworkIo, which wraps live
socket IO, is out of scope; diagnostic strings are elided). -/
inductive UdpPacketError where
  | MalformedDomainName (source : Malformation)
  | MaxJumpsExceeded
  | OutOfBounds (length : Nat) (index : Nat)
  | FromUtf8 (bytes : List Nat)
deriving DecidableEq, Repr

/-- Outcome of a Rust computation: Ok, Err (the udp_packet Result type), or a
panic (index out of bounds / unwrap / expect / panic!). -/
inductive Res (α : Type) where
  | ok (a : α)
  | err (e : UdpPacketError)
  | panicked
deriving DecidableEq, Repr

/-- The ? operator / monadic sequencing over Res. -/
def Res.bind {α β : Type} : Res α → (α → Res β) → Res β
  | .ok a, f => f a
  | .err e, _ => .err e
  | .panicked, _ => .panicked

instance : Monad Res where
  pure := Res.ok
  bind := Res.bind

@[simp] theorem Res.bind_ok {α β : Type} (a : α) (f : α → Res β) :
    Res.bind (Res.ok a) f = f a := rfl

@[simp] theorem Res.bind_err {α β : Type} (e : UdpPacketError) (f : α → Res β) :
    Res.bind (Res.err e) f = Res.err e := rfl

@[simp] theorem Res.bind_panicked {α β : Type} (f : α → Res β) :
    Res.bind Res.panicked f = Res.panicked := rfl

@[simp] theorem Res.monad_bind_eq {α β : Type} (x : Res α) (f : α → Res β) :
    x >>= f = Res.bind x f := rfl

@[simp] theorem Res.pure_eq {α : Type} (a : α) : (pure a : Res α) = Res.ok a := rfl

/-- Rust .unwrap() on an Option-valued conversion. -/
def unwrapOption {α : Type} : Option α → Res α
  | some a => .ok a
  | none => .panicked

/-- Raw Rust slice indexing buffer[i]: panics when the index is out of range. -/
def getRaw (l : List Nat) (i : Nat) : Res Nat :=
  if h : i < l.length then .ok l[i] else .panicked

/-- UTF-8 encoding of one char (what Rust's str stores for it). -/
def charUtf8Bytes (c : Char) : List Nat :=
  let n := c.toNat
  if n < 0x80 then [n]
  else if n < 0x800 then
    [0xC0 ||| (n >>> 6), 0x80 ||| (n &&& 0x3F)]
  else if n < 0x10000 then
    [0xE0 ||| (n >>> 12), 0x80 ||| ((n >>> 6) &&& 0x3F), 0x80 ||| (n &&& 0x3F)]
  else
    [0xF0 ||| (n >>> 18), 0x80 ||| ((n >>> 12) &&& 0x3F),
     0x80 ||| ((n >>> 6) &&& 0x3F), 0x80 ||| (n &&& 0x3F)]

/-- The UTF-8 bytes of a Rust str (str::as_bytes). -/
def utf8Bytes (cs : List Char) : List Nat := cs.flatMap charUtf8Bytes

/-- Whether a continuation byte is valid (0x80..0xBF). -/
def utf8Cont (b : Nat) : Bool := 0x80 ≤ b && b ≤ 0xBF

/-- Validity of a byte sequence as UTF-8 (String::from_utf8 succeeds),
following the standard well-formedness table. -/
def utf8Valid : List Nat → Bool
  | [] => true
  | b :: rest =>
    if b ≤ 0x7F then utf8Valid rest
    else if b < 0xC2 then false
    else if b ≤ 0xDF then
      match rest with
      | c1 :: rest1 => utf8Cont c1 && utf8Valid rest1
      | [] => false
    else if b ≤ 0xEF then
      match rest with
      | c1 :: c2 :: rest2 =>
        (if b = 0xE0 then 0xA0 ≤ c1 && c1 ≤ 0xBF
         else if b = 0xED then 0x80 ≤ c1 && c1 ≤ 0x9F
         else utf8Cont c1) && utf8Cont c2 && utf8Valid rest2
      | _ => false
    else if b ≤ 0xF4 then
      match rest with
      | c1 :: c2 :: c3 :: rest3 =>
        (if b = 0xF0 then 0x90 ≤ c1 && c1 ≤ 0xBF
         else if b = 0xF4 then 0x80 ≤ c1 && c1 ≤ 0x8F
         else utf8Cont c1) && utf8Cont c2 && utf8Cont c3 && utf8Valid rest3
      | _ => false
    else false

/-- The DomainName struct of udp_packet.rs: the wire-encoded bytes. -/
structure DomainName where
  bytes : List Nat
deriving DecidableEq, Repr

/-- Rust's str::split('.') at the char level: splitting a char list on '.'. -/
def splitDots (cs : List Char) : List (List Char) :=
  match cs with
  | [] => [[]]
  | c :: rest =>
    match splitDots rest with
    | [] => [[]]
    | g :: gs => if c = '.' then [] :: g :: gs else (c :: g) :: gs

/-- The label-encoding loop of DomainName::from_str: one length byte then the
label bytes for each label, failing on a label longer than 63 bytes. -/
def encode_labels : List (List Char) → Res (List (List Nat))
  | [] => .ok []
  | label :: rest =>
    if (utf8Bytes label).length > LABEL_MAX_LENGTH_BYTES then
      .err (.MalformedDomainName .LabelTooLong)
    else
      match encode_labels rest with
      | .ok tail => .ok (((utf8Bytes label).length :: utf8Bytes label) :: tail)
      | .err e => .err e
      | .panicked => .panicked

/-- DomainName::from_str of udp_packet.rs. Note the s.pop() on entry: the last
character of the input is removed unconditionally. -/
def DomainName.from_str (s : String) : Res DomainName :=
  let t := s.data.dropLast
  if (utf8Bytes t).length + 2 > NAME_MAX_LENGTH_BYTES then
    .err (.MalformedDomainName .NameTooLong)
  else
    match encode_labels (splitDots t) with
    | .ok parts => .ok ⟨(parts ++ [[0]]).flatten⟩
    | .err e => .err e
    | .panicked => .panicked

/-- The UdpPacket struct of udp_packet.rs: a 512-byte buffer and a cursor. -/
structure UdpPacket where
  buffer : List Nat
  position : Nat
deriving DecidableEq, Repr

/-- UdpPacket::new. -/
def UdpPacket.new : UdpPacket :=
  ⟨List.replicate UDP_PACKET_MAX_SIZE_BYTES 0, 0⟩

/-- UdpPacket::read_u16: big-endian, bounds-checked against the constant 512,
advancing the cursor by 2. -/
def UdpPacket.read_u16 (p : UdpPacket) : Res (Nat × UdpPacket) :=
  if p.position + 1 ≥ UDP_PACKET_MAX_SIZE_BYTES then
    .err (.OutOfBounds UDP_PACKET_MAX_SIZE_BYTES (p.position + 1))
  else do
    let b0 ← getRaw p.buffer p.position
    let b1 ← getRaw p.buffer (p.position + 1)
    pure ((b0 <<< 8) ||| b1, { p with position := p.position + 2 })

/-- UdpPacket::read_u32: its own bound check, then two read_u16 calls. -/
def UdpPacket.read_u32 (p : UdpPacket) : Res (Nat × UdpPacket) :=
  if p.position + 3 ≥ UDP_PACKET_MAX_SIZE_BYTES then
    .err (.OutOfBounds UDP_PACKET_MAX_SIZE_BYTES (p.position + 3))
  else do
    let (hi, p) ← p.read_u16
    let (lo, p) ← p.read_u16
    pure ((hi <<< 16) ||| lo, p)

/-- UdpPacket::read_u64: its own bound check, then two read_u32 calls. -/
def UdpPacket.read_u64 (p : UdpPacket) : Res (Nat × UdpPacket) :=
  if p.position + 7 ≥ UDP_PACKET_MAX_SIZE_BYTES then
    .err (.OutOfBounds UDP_PACKET_MAX_SIZE_BYTES (p.position + 7))
  else do
    let (hi, p) ← p.read_u32
    let (lo, p) ← p.read_u32
    pure ((hi <<< 32) ||| lo, p)

/-- UdpPacket::read_u128: its own bound check, then two read_u64 calls. -/
def UdpPacket.read_u128 (p : UdpPacket) : Res (Nat × UdpPacket) :=
  if p.position + 15 ≥ UDP_PACKET_MAX_SIZE_BYTES then
    .err (.OutOfBounds UDP_PACKET_MAX_SIZE_BYTES (p.position + 15))
  else do
    let (hi, p) ← p.read_u64
    let (lo, p) ← p.read_u64
    pure ((hi <<< 64) ||| lo, p)

/-- The elementwise assignment loop of UdpPacket::write_from_slice
(buffer[position + index] = element, in index order). -/
def storeSlice (buffer : List Nat) (pos : Nat) : List Nat → List Nat
  | [] => buffer
  | b :: rest => storeSlice (buffer.set pos b) (pos + 1) rest

/-- UdpPacket::write_from_slice. The margin defaults to 0 when None; the
bound check is against the constant 512, before any byte is written; the
assignments themselves would panic past the real buffer end. -/
def UdpPacket.write_from_slice (p : UdpPacket) (slice : List Nat)
    (margin : Option Nat) : Res UdpPacket :=
  let m := match margin with
    | some value => value
    | none => 0
  if p.position + slice.length + m ≥ UDP_PACKET_MAX_SIZE_BYTES then
    .err (.OutOfBounds UDP_PACKET_MAX_SIZE_BYTES (p.position + slice.length))
  else if p.position + slice.length > p.buffer.length ∧ slice.length ≠ 0 then
    .panicked
  else
    .ok { buffer := storeSlice p.buffer p.position slice,
          position := p.position + slice.length }

/-- UdpPacket::read_to_slice: an immutable view, bounds-checked against 512,
not moving the cursor (the slicing itself would panic past the buffer end). -/
def UdpPacket.read_to_slice (p : UdpPacket) (start length : Nat) : Res (List Nat) :=
  if start + length ≥ UDP_PACKET_MAX_SIZE_BYTES then
    .err (.OutOfBounds UDP_PACKET_MAX_SIZE_BYTES (start + length))
  else if start + length > p.buffer.length then
    .panicked
  else
    .ok ((p.buffer.drop start).take length)

/-- UdpPacket::write_domain_name: writes the stored wire bytes verbatim. -/
def UdpPacket.write_domain_name (p : UdpPacket) (domain_name : DomainName)
    (margin : Option Nat) : Res UdpPacket :=
  p.write_from_slice domain_name.bytes margin

/-- The while loop of UdpPacket::read_domain_name. State: accumulated label
slices (values), jump counter, has_jumped flag, read position, and the count
of literal bytes read before the first jump. Returns the final accumulator.
The extra fuel argument only makes the recursion structural; it never runs
out for the initial fuel chosen in read_domain_name (none is returned on
exhausted fuel, and read_domain_name_loop_total below proves that any fuel
above the loop variant (MAX_JUMPS + 1 - num_jumps) * (buffer.length + 1) +
(buffer.length - position) is enough, so Rust's while loop terminates on
every input). -/
def read_domain_name_loop (buffer : List Nat) :
    Nat → List (List Nat) → Nat → Bool → Nat → Nat →
    Option (Res (List (List Nat) × Bool × Nat))
  | 0, _, _, _, _, _ => none
  | fuel + 1, values, num_jumps, has_jumped, position, num_bytes_read_before_jump =>
    if hpos : position < buffer.length then
      let byte := buffer[position]
      if byte = 0 then
        some (.ok (values, has_jumped, num_bytes_read_before_jump))
      else if num_jumps > MAX_JUMPS then
        some (.err .MaxJumpsExceeded)
      else if byte &&& 0xc0 = 0xc0 then
        if hpos1 : position + 1 < buffer.length then
          read_domain_name_loop buffer fuel values (num_jumps + 1) true
            (((byte &&& 0x3f) <<< 8) ||| buffer[position + 1])
            num_bytes_read_before_jump
        else some .panicked
      else
        let length := byte + 1
        if length > LABEL_MAX_LENGTH_BYTES then
          some (.err (.MalformedDomainName .LabelTooLong))
        else if position + length ≥ UDP_PACKET_MAX_SIZE_BYTES then
          some (.err (.OutOfBounds UDP_PACKET_MAX_SIZE_BYTES (position + length)))
        else if position + length > buffer.length then
          some .panicked
        else
          read_domain_name_loop buffer fuel
            (values ++ [(buffer.drop position).take length])
            num_jumps has_jumped (position + length)
            (if has_jumped then num_bytes_read_before_jump
             else num_bytes_read_before_jump + length)
    else some .panicked

/-- The initial fuel read_domain_name hands the loop: strictly above the
loop variant of any reachable state. -/
def read_domain_name_fuel (buffer : List Nat) : Nat :=
  (MAX_JUMPS + 2) * (buffer.length + 1)

/-- Fuel above the loop variant never runs out: the decode loop reaches a
result (Rust's while loop terminates) from every state, in particular from
every buffer content and cursor position. -/
theorem read_domain_name_loop_total : ∀ (fuel : Nat) (buffer : List Nat)
    (values : List (List Nat)) (num_jumps : Nat) (has_jumped : Bool)
    (position num_bytes_read_before_jump : Nat),
    (MAX_JUMPS + 1 - num_jumps) * (buffer.length + 1) +
      (buffer.length - position) < fuel →
    (read_domain_name_loop buffer fuel values num_jumps has_jumped position
      num_bytes_read_before_jump).isSome := by
  intro fuel
  induction fuel with
  | zero => intro buffer values nj hj pos nb h; omega
  | succ fuel ih =>
    intro buffer values nj hj pos nb h
    simp only [read_domain_name_loop]
    split
    · split
      · simp
      · split
        · simp
        · split
          · split
            · apply ih
              simp only [MAX_JUMPS] at *
              have h1 : 10 + 1 - nj = (10 + 1 - (nj + 1)) + 1 := by omega
              rw [h1, Nat.add_mul, Nat.one_mul] at h
              have h2 : buffer.length -
                  (((buffer[pos] &&& 63) <<< 8) ||| buffer[pos + 1]) ≤
                  buffer.length := Nat.sub_le _ _
              omega
            · simp
          · split
            · simp
            · split
              · simp
              · split
                · simp
                · apply ih
                  simp only [MAX_JUMPS] at *
                  omega
    · simp

/-- UdpPacket::read_domain_name: runs the loop from the current position, then
assembles the name, applies the 255-byte check (converting the bytes to UTF-8
for the error message, which can itself fail), and updates the cursor: by the
full decoded length when no jump occurred, else by the pre-jump literal byte
count plus 2. (The none branch is unreachable by
read_domain_name_loop_total.) -/
def UdpPacket.read_domain_name (p : UdpPacket) : Res (DomainName × UdpPacket) :=
  match read_domain_name_loop p.buffer (read_domain_name_fuel p.buffer) [] 0
      false p.position 0 with
  | none => .panicked
  | some (.err e) => .err e
  | some .panicked => .panicked
  | some (.ok (values, has_jumped, num_bytes_read_before_jump)) =>
    let result := values.flatten ++ [0]
    if result.length > NAME_MAX_LENGTH_BYTES then
      if utf8Valid result then .err (.MalformedDomainName .NameTooLong)
      else .err (.FromUtf8 result)
    else
      .ok (⟨result⟩,
        { p with position := p.position +
            (match has_jumped with
             | true => num_bytes_read_before_jump + 2
             | false => result.length) })

/-- DNS_HEADER_LENGTH_BYTES of dns_message.rs. -/
def DNS_HEADER_LENGTH_BYTES : Nat := 12

/-- QUESTION_COUNT of dns_message.rs (the default QDCOUNT). -/
def QUESTION_COUNT : Nat := 1

/-- RECURSION_DESIRED of dns_message.rs (the default RD flag). -/
def RECURSION_DESIRED : Bool := true

/-- TEST_DOMAIN of dns_message.rs. -/
def TEST_DOMAIN : String := "example.com"

/-- conversions::u16_to_u8 (big-endian byte pair). -/
def u16_to_u8 (num : Nat) : List Nat :=
  [(num &&& 0xff00) >>> 8, num &&& 0xff]

/-- conversions::u32_to_u8 (big-endian byte quadruple). -/
def u32_to_u8 (num : Nat) : List Nat :=
  [(num &&& 0xff000000) >>> 24, (num &&& 0xff0000) >>> 16,
   (num &&& 0xff00) >>> 8, num &&& 0xff]

/-- conversions::bool_to_u16. -/
def bool_to_u16 (boolean : Bool) : Nat :=
  match boolean with
  | true => 1
  | false => 0

/-- conversions::u16_to_bool: panics on anything but 0 or 1. -/
def u16_to_bool (num : Nat) : Res Bool :=
  if num = 1 then .ok true
  else if num = 0 then .ok false
  else .panicked

/-- The OperationCode enum (build_enum: QUERY = 0). -/
inductive OperationCode where
  | QUERY
deriving DecidableEq, Repr

/-- TryFrom u16 for OperationCode: Err (here none) on unknown values. -/
def OperationCode.try_from (value : Nat) : Option OperationCode :=
  if value = 0 then some .QUERY else none

/-- TryInto u16 for OperationCode (total across the variants). -/
def OperationCode.try_into : OperationCode → Nat
  | .QUERY => 0

/-- The ResponseCode enum (build_enum: NOERROR..REFUSED = 0..5). -/
inductive ResponseCode where
  | NOERROR
  | FORMATERROR
  | SERVERFAILURE
  | NAMEERROR
  | NOTIMPLEMENTED
  | REFUSED
deriving DecidableEq, Repr

/-- TryFrom u16 for ResponseCode. -/
def ResponseCode.try_from (value : Nat) : Option ResponseCode :=
  if value = 0 then some .NOERROR
  else if value = 1 then some .FORMATERROR
  else if value = 2 then some .SERVERFAILURE
  else if value = 3 then some .NAMEERROR
  else if value = 4 then some .NOTIMPLEMENTED
  else if value = 5 then some .REFUSED
  else none

/-- TryInto u16 for ResponseCode. -/
def ResponseCode.try_into : ResponseCode → Nat
  | .NOERROR => 0
  | .FORMATERROR => 1
  | .SERVERFAILURE => 2
  | .NAMEERROR => 3
  | .NOTIMPLEMENTED => 4
  | .REFUSED => 5

/-- The RecordType enum (build_enum: A=1, NS=2, CNAME=5, SOA=6, MX=15, AAAA=28). -/
inductive RecordType where
  | A
  | NS
  | CNAME
  | SOA
  | MX
  | AAAA
deriving DecidableEq, Repr

/-- TryFrom u16 for RecordType. -/
def RecordType.try_from (value : Nat) : Option RecordType :=
  if value = 1 then some .A
  else if value = 2 then some .NS
  else if value = 5 then some .CNAME
  else if value = 6 then some .SOA
  else if value = 15 then some .MX
  else if value = 28 then some .AAAA
  else none

/-- TryInto u16 for RecordType. -/
def RecordType.try_into : RecordType → Nat
  | .A => 1
  | .NS => 2
  | .CNAME => 5
  | .SOA => 6
  | .MX => 15
  | .AAAA => 28

/-- The RecordClass enum (build_enum: IN = 1). -/
inductive RecordClass where
  | IN
deriving DecidableEq, Repr

/-- TryFrom u16 for RecordClass. -/
def RecordClass.try_from (value : Nat) : Option RecordClass :=
  if value = 1 then some .IN else none

/-- TryInto u16 for RecordClass. -/
def RecordClass.try_into : RecordClass → Nat
  | .IN => 1

/-- The QuestionType enum (build_enum: ANY = 255). -/
inductive QuestionType where
  | ANY
deriving DecidableEq, Repr

/-- TryFrom u16 for QuestionType. -/
def QuestionType.try_from (value : Nat) : Option QuestionType :=
  if value = 255 then some .ANY else none

/-- TryInto u16 for QuestionType. -/
def QuestionType.try_into : QuestionType → Nat
  | .ANY => 255

/-- The QuestionClass enum (build_enum: ANY = 255). -/
inductive QuestionClass where
  | ANY
deriving DecidableEq, Repr

/-- TryFrom u16 for QuestionClass. -/
def QuestionClass.try_from (value : Nat) : Option QuestionClass :=
  if value = 255 then some .ANY else none

/-- TryInto u16 for QuestionClass. -/
def QuestionClass.try_into : QuestionClass → Nat
  | .ANY => 255

/-- The CombinedType enum of dns_message.rs. -/
inductive CombinedType where
  | questionType (qtype : QuestionType)
  | recordType (rtype : RecordType)
deriving DecidableEq, Repr

/-- TryFrom u16 for CombinedType: QuestionType first, then RecordType. -/
def CombinedType.try_from (value : Nat) : Option CombinedType :=
  match QuestionType.try_from value with
  | some qtype => some (.questionType qtype)
  | none =>
    match RecordType.try_from value with
    | some rtype => some (.recordType rtype)
    | none => none

/-- TryInto u16 for CombinedType. -/
def CombinedType.try_into : CombinedType → Nat
  | .questionType qtype => qtype.try_into
  | .recordType rtype => rtype.try_into

/-- The CombinedClass enum of dns_message.rs. -/
inductive CombinedClass where
  | questionClass (qclass : QuestionClass)
  | recordClass (rclass : RecordClass)
deriving DecidableEq, Repr

/-- TryFrom u16 for CombinedClass: QuestionClass first, then RecordClass. -/
def CombinedClass.try_from (value : Nat) : Option CombinedClass :=
  match QuestionClass.try_from value with
  | some qclass => some (.questionClass qclass)
  | none =>
    match RecordClass.try_from value with
    | some rclass => some (.recordClass rclass)
    | none => none

/-- TryInto u16 for CombinedClass. -/
def CombinedClass.try_into : CombinedClass → Nat
  | .questionClass qclass => qclass.try_into
  | .recordClass rclass => rclass.try_into

/-- The 16 big-endian octets of an Ipv6Addr (std::net::Ipv6Addr::octets),
the address being stored as its u128 value. -/
def ipv6_octets (num : Nat) : List Nat :=
  [(num >>> 120) &&& 0xff, (num >>> 112) &&& 0xff, (num >>> 104) &&& 0xff,
   (num >>> 96) &&& 0xff, (num >>> 88) &&& 0xff, (num >>> 80) &&& 0xff,
   (num >>> 72) &&& 0xff, (num >>> 64) &&& 0xff, (num >>> 56) &&& 0xff,
   (num >>> 48) &&& 0xff, (num >>> 40) &&& 0xff, (num >>> 32) &&& 0xff,
   (num >>> 24) &&& 0xff, (num >>> 16) &&& 0xff, (num >>> 8) &&& 0xff,
   num &&& 0xff]

/-- The RecordData enum of dns_message.rs; IP addresses are stored as their
integer values. -/
inductive RecordData where
  | A (ipv4_address : Nat)
  | AAAA (ipv6_address : Nat)
  | CNAME (canonical_name : DomainName)
  | SOA (domain_name : DomainName) (mailbox_address : DomainName)
      (serial refresh retry expire minimum : Nat)
  | MX (preference : Nat) (exchange_address : DomainName)
  | NS (domain_name : DomainName)
  | Unknown
deriving DecidableEq, Repr

/-- RecordData::as_bytes. Note the Unknown arm: the literal bytes of the
string "Unknown/unimplemented". -/
def RecordData.as_bytes : RecordData → List Nat
  | .A ipv4_address => u32_to_u8 ipv4_address
  | .AAAA ipv6_address => ipv6_octets ipv6_address
  | .CNAME canonical_name => canonical_name.bytes
  | .MX preference exchange_address =>
      u16_to_u8 preference ++ exchange_address.bytes
  | .NS domain_name => domain_name.bytes
  | .SOA domain_name mailbox_address serial refresh retry expire minimum =>
      domain_name.bytes ++ mailbox_address.bytes ++
      (u32_to_u8 serial ++ u32_to_u8 refresh ++ u32_to_u8 retry ++
       u32_to_u8 expire ++ u32_to_u8 minimum)
  | .Unknown => utf8Bytes "Unknown/unimplemented".data

/-- RecordData::read_from_udp_packet: RDATA decoding dispatched on the
already-decoded RecordType (no arm exists for unknown types). -/
def RecordData.read_from_udp_packet (p : UdpPacket) (record_type : RecordType) :
    Res (RecordData × UdpPacket) :=
  match record_type with
  | .A => do
    let (v, p) ← p.read_u32
    pure (RecordData.A v, p)
  | .AAAA => do
    let (v, p) ← p.read_u128
    pure (RecordData.AAAA v, p)
  | .CNAME => do
    let (canonical_name, p) ← p.read_domain_name
    pure (RecordData.CNAME canonical_name, p)
  | .MX => do
    let (preference, p) ← p.read_u16
    let (exchange_address, p) ← p.read_domain_name
    pure (RecordData.MX preference exchange_address, p)
  | .NS => do
    let (domain_name, p) ← p.read_domain_name
    pure (RecordData.NS domain_name, p)
  | .SOA => do
    let (domain_name, p) ← p.read_domain_name
    let (mailbox_address, p) ← p.read_domain_name
    let (serial, p) ← p.read_u32
    let (refresh, p) ← p.read_u32
    let (retry, p) ← p.read_u32
    let (expire, p) ← p.read_u32
    let (minimum, p) ← p.read_u32
    pure (RecordData.SOA domain_name mailbox_address serial refresh retry
      expire minimum, p)

/-- The DnsHeader struct of dns_message.rs. -/
structure DnsHeader where
  id : Nat
  response : Bool
  operation_code : OperationCode
  authoritative_answer : Bool
  truncated : Bool
  recursion_desired : Bool
  recursion_available : Bool
  z : Nat
  response_code : ResponseCode
  question_count : Nat
  answer_count : Nat
  authority_count : Nat
  additional_count : Nat
deriving DecidableEq, Repr

/-- The Default DnsHeader. -/
def DnsHeader.default_header : DnsHeader :=
  { id := 0, response := false, operation_code := .QUERY,
    authoritative_answer := false, truncated := false,
    recursion_desired := RECURSION_DESIRED, recursion_available := false,
    z := 0, response_code := .NOERROR, question_count := QUESTION_COUNT,
    answer_count := 0, authority_count := 0, additional_count := 0 }

/-- DnsHeader::write_to_udp_packet: panics (explicit panic!) unless the cursor
is within bytes 0-11, packs the flag word, and writes the 12 header bytes. -/
def DnsHeader.write_to_udp_packet (h : DnsHeader) (p : UdpPacket) : Res UdpPacket :=
  if p.position ≥ DNS_HEADER_LENGTH_BYTES then
    .panicked
  else
    let flag_u16 :=
      h.response_code.try_into
      ||| (h.z <<< 4)
      ||| (bool_to_u16 h.recursion_available <<< 7)
      ||| (bool_to_u16 h.recursion_desired <<< 8)
      ||| (bool_to_u16 h.truncated <<< 9)
      ||| (bool_to_u16 h.authoritative_answer <<< 10)
      ||| (h.operation_code.try_into <<< 11)
      ||| (bool_to_u16 h.response <<< 15)
    let slice :=
      u16_to_u8 h.id ++ u16_to_u8 flag_u16 ++ u16_to_u8 h.question_count ++
      u16_to_u8 h.answer_count ++ u16_to_u8 h.authority_count ++
      u16_to_u8 h.additional_count
    p.write_from_slice slice (some 0)

/-- DnsHeader::read_from_udp_packet: two u16 reads, unwrap-based flag
decoding (panics on unknown opcode or response code), then the four counts. -/
def DnsHeader.read_from_udp_packet (p : UdpPacket) : Res (DnsHeader × UdpPacket) := do
  let (id, p) ← p.read_u16
  let (flag_bytes, p) ← p.read_u16
  let response ← u16_to_bool ((flag_bytes &&& 0x8000) >>> 15)
  let operation_code ← unwrapOption (OperationCode.try_from ((flag_bytes &&& 0x7800) >>> 11))
  let authoritative_answer ← u16_to_bool ((flag_bytes &&& 0x400) >>> 10)
  let truncated ← u16_to_bool ((flag_bytes &&& 0x200) >>> 9)
  let recursion_desired ← u16_to_bool ((flag_bytes &&& 0x100) >>> 8)
  let recursion_available ← u16_to_bool ((flag_bytes &&& 0x80) >>> 7)
  let z := (flag_bytes &&& 0x70) >>> 4
  let response_code ← unwrapOption (ResponseCode.try_from (flag_bytes &&& 0xf))
  let (question_count, p) ← p.read_u16
  let (answer_count, p) ← p.read_u16
  let (authority_count, p) ← p.read_u16
  let (additional_count, p) ← p.read_u16
  pure ({ id := id, response := response, operation_code := operation_code,
          authoritative_answer := authoritative_answer, truncated := truncated,
          recursion_desired := recursion_desired,
          recursion_available := recursion_available, z := z,
          response_code := response_code, question_count := question_count,
          answer_count := answer_count, authority_count := authority_count,
          additional_count := additional_count }, p)

/-- The DnsQuestion struct of dns_message.rs. -/
structure DnsQuestion where
  name : DomainName
  question_type : CombinedType
  question_class : CombinedClass
deriving DecidableEq, Repr

/-- The Default DnsQuestion: name from TEST_DOMAIN (the .expect panics if the
construction fails), default type (RecordType::A) and class (RecordClass::IN). -/
def DnsQuestion.default_question : Res DnsQuestion :=
  match DomainName.from_str TEST_DOMAIN with
  | .ok name => .ok { name := name, question_type := .recordType .A,
                      question_class := .recordClass .IN }
  | _ => .panicked

/-- DnsQuestion::write_to_udp_packet: the name with margin 4, then type and
class as big-endian u16 values. -/
def DnsQuestion.write_to_udp_packet (q : DnsQuestion) (p : UdpPacket) : Res UdpPacket := do
  let p ← p.write_domain_name q.name (some 4)
  let p ← p.write_from_slice (u16_to_u8 q.question_type.try_into) (some 0)
  let p ← p.write_from_slice (u16_to_u8 q.question_class.try_into) (some 0)
  pure p

/-- DnsQuestion::read_from_udp_packet: name, then unwrap-based type and class
decoding (panics on a value outside the known sets). -/
def DnsQuestion.read_from_udp_packet (p : UdpPacket) : Res (DnsQuestion × UdpPacket) := do
  let (name, p) ← p.read_domain_name
  let (tv, p) ← p.read_u16
  let question_type ← unwrapOption (CombinedType.try_from tv)
  let (cv, p) ← p.read_u16
  let question_class ← unwrapOption (CombinedClass.try_from cv)
  pure ({ name := name, question_type := question_type,
          question_class := question_class }, p)

/-- The DnsRecord struct of dns_message.rs. -/
structure DnsRecord where
  name : DomainName
  record_type : RecordType
  record_class : RecordClass
  ttl : Nat
  length : Nat
  data : RecordData
deriving DecidableEq, Repr

/-- DnsRecord::write_to_udp_packet: the name with margin 10, then type, class,
ttl, declared RDATA length and the RDATA bytes in one slice. -/
def DnsRecord.write_to_udp_packet (r : DnsRecord) (p : UdpPacket) : Res UdpPacket := do
  let p ← p.write_domain_name r.name (some 10)
  let p ← p.write_from_slice
    (u16_to_u8 r.record_type.try_into ++ u16_to_u8 r.record_class.try_into ++
     u32_to_u8 r.ttl ++ u16_to_u8 r.length ++ r.data.as_bytes) (some 0)
  pure p

/-- DnsRecord::read_from_udp_packet: name, unwrap-decoded type (panics on an
unknown type value) and class, ttl, declared length, then type-dispatched
RDATA. -/
def DnsRecord.read_from_udp_packet (p : UdpPacket) : Res (DnsRecord × UdpPacket) := do
  let (name, p) ← p.read_domain_name
  let (tv, p) ← p.read_u16
  let record_type ← unwrapOption (RecordType.try_from tv)
  let (cv, p) ← p.read_u16
  let record_class ← unwrapOption (RecordClass.try_from cv)
  let (ttl, p) ← p.read_u32
  let (length, p) ← p.read_u16
  let (data, p) ← RecordData.read_from_udp_packet p record_type
  pure ({ name := name, record_type := record_type, record_class := record_class,
          ttl := ttl, length := length, data := data }, p)

/-- The indexed for loop of DnsMessage::write_to_udp_packet over one section:
for index in 0..count, write xs[index] (raw indexing panics when the count
exceeds the vector's length). -/
def write_section {α : Type} (write1 : α → UdpPacket → Res UdpPacket)
    (xs : List α) : Nat → Nat → UdpPacket → Res UdpPacket
  | _, 0, p => .ok p
  | index, count + 1, p =>
    if h : index < xs.length then
      match write1 xs[index] p with
      | .ok p2 => write_section write1 xs (index + 1) count p2
      | .err e => .err e
      | .panicked => .panicked
    else .panicked

/-- The counted read loop of DnsMessage::read_from_udp_packet over one
section. -/
def read_section {α : Type} (read1 : UdpPacket → Res (α × UdpPacket)) :
    Nat → UdpPacket → Res (List α × UdpPacket)
  | 0, p => .ok ([], p)
  | count + 1, p =>
    match read1 p with
    | .ok (x, p2) =>
      match read_section read1 count p2 with
      | .ok (xs, p3) => .ok (x :: xs, p3)
      | .err e => .err e
      | .panicked => .panicked
    | .err e => .err e
    | .panicked => .panicked

/-- The DnsMessage struct of dns_message.rs. -/
structure DnsMessage where
  header : DnsHeader
  questions : List DnsQuestion
  answers : List DnsRecord
  authorities : List DnsRecord
  additional : List DnsRecord
deriving DecidableEq, Repr

/-- The Default DnsMessage: default header and one default question. -/
def DnsMessage.default_message : Res DnsMessage :=
  match DnsQuestion.default_question with
  | .ok q => .ok { header := DnsHeader.default_header, questions := [q],
                   answers := [], authorities := [], additional := [] }
  | .err e => .err e
  | .panicked => .panicked

/-- DnsMessage::write_to_udp_packet: header, then the four sections, each
driven by the corresponding header count. -/
def DnsMessage.write_to_udp_packet (m : DnsMessage) (p : UdpPacket) : Res UdpPacket := do
  let p ← m.header.write_to_udp_packet p
  let p ← write_section DnsQuestion.write_to_udp_packet m.questions 0
    m.header.question_count p
  let p ← write_section DnsRecord.write_to_udp_packet m.answers 0
    m.header.answer_count p
  let p ← write_section DnsRecord.write_to_udp_packet m.authorities 0
    m.header.authority_count p
  let p ← write_section DnsRecord.write_to_udp_packet m.additional 0
    m.header.additional_count p
  pure p

/-- DnsMessage::read_from_udp_packet: header first, then exactly as many
questions and records as the header counts declare. -/
def DnsMessage.read_from_udp_packet (p : UdpPacket) : Res (DnsMessage × UdpPacket) := do
  let (header, p) ← DnsHeader.read_from_udp_packet p
  let (questions, p) ← read_section DnsQuestion.read_from_udp_packet
    header.question_count p
  let (answers, p) ← read_section DnsRecord.read_from_udp_packet
    header.answer_count p
  let (authorities, p) ← read_section DnsRecord.read_from_udp_packet
    header.authority_count p
  let (additional, p) ← read_section DnsRecord.read_from_udp_packet
    header.additional_count p
  pure ({ header := header, questions := questions, answers := answers,
          authorities := authorities, additional := additional }, p)

/-
Concrete claim scenarios.
-/

/-- A domain name with a single 63-byte label; encoded length 65 <= 255. -/
def c1_name : DomainName := ⟨63 :: List.replicate 63 97 ++ [0]⟩

/-- The buffer produced by writing c1_name into a fresh packet. -/
def c1_buf : List Nat := (63 :: List.replicate 63 97 ++ [0]) ++ List.replicate 447 0

/-- Claim C1: a DomainName with one 63-byte label (labels at most 63 bytes,
total encoded length 65 at most 255) encodes into a fresh packet, but decoding
from position 0 does not return the name: the decoder compares the label
length plus the length byte against 63 and rejects with LabelTooLong, so the
claimed round-trip fails at this input. -/
theorem c1_roundtrip_fails_at_63_byte_label :
    UdpPacket.write_domain_name UdpPacket.new c1_name none = .ok ⟨c1_buf, 65⟩ ∧
    UdpPacket.read_domain_name ⟨c1_buf, 0⟩ =
      .err (.MalformedDomainName .LabelTooLong) ∧
    c1_name.bytes.length = 65 := by
  decide

/-- A packet whose first bytes are a compression pointer to offset 512. -/
def c2_buf : List Nat := 194 :: 0 :: List.replicate 510 0

/-- Claim C2 counterexample: a 2-byte pointer whose offset is 512 makes
read_domain_name index the 512-byte buffer out of range, i.e. the decoder
panics instead of returning a value or a typed UdpPacketError. -/
theorem c2_pointer_to_512_panics :
    UdpPacket.read_domain_name ⟨c2_buf, 0⟩ = .panicked := by
  decide

/-- A packet whose first bytes are a compression pointer to offset 600. -/
def c2_buf2 : List Nat := 194 :: 88 :: List.replicate 510 0

/-- A packet holding a header that declares one question over all-zero
content: the question's type field reads as 0, which no known type matches. -/
def c2_msg_buf : List Nat := List.replicate 4 0 ++ [0, 1] ++ List.replicate 506 0

/-- Claim C2 amended: decoding always terminates - from every buffer content
and every starting cursor position the decode loop reaches a result within
its static fuel bound - but it is not crash-free: a crafted pointer whose
offset lies past the 512-byte buffer panics on a raw index instead of
returning a typed error, and a message whose declared question count exceeds
the buffer's actual content can panic on the unwrap of an unknown type value
instead of surfacing an OutOfBounds error. -/
theorem c2_decoder_terminates_but_can_panic :
    (∀ (buffer : List Nat) (position : Nat),
      (read_domain_name_loop buffer (read_domain_name_fuel buffer) [] 0 false
        position 0).isSome) ∧
    UdpPacket.read_domain_name ⟨c2_buf2, 0⟩ = .panicked ∧
    DnsMessage.read_from_udp_packet ⟨c2_msg_buf, 0⟩ = .panicked := by
  refine ⟨fun buffer position => ?_, by decide, by decide⟩
  apply read_domain_name_loop_total
  simp only [read_domain_name_fuel, MAX_JUMPS]
  have h2 : buffer.length - position ≤ buffer.length := Nat.sub_le _ _
  omega

/-- A chain of 11 compression pointers (at offsets 0,2,...,20), the last one
landing directly on a zero terminator at offset 22. -/
def c3_buf11 : List Nat :=
  (List.range 11).flatMap (fun i => [192, 2 * i + 2]) ++ List.replicate 490 0

/-- Claim C3 counterexample: a pointer chain of exactly 11 hops whose final
hop lands on the terminator decodes successfully (to the empty name), because
the jump guard only fires when a non-terminator byte is reached after more
than 10 jumps - so a chain of 11 or more hops does not always fail. -/
theorem c3_chain_of_11_hops_succeeds :
    UdpPacket.read_domain_name ⟨c3_buf11, 0⟩ = .ok (⟨[0]⟩, ⟨c3_buf11, 2⟩) := by
  decide

/-- A chain of 12 compression pointers (at offsets 0,2,...,22). -/
def c3_buf12 : List Nat :=
  (List.range 12).flatMap (fun i => [192, 2 * i + 2]) ++ List.replicate 488 0

/-- A chain of 10 compression pointers (at offsets 0,2,...,18) landing on a
one-byte label followed by the terminator. -/
def c3_buf10 : List Nat :=
  (List.range 10).flatMap (fun i => [192, 2 * i + 2]) ++ [1, 97, 0] ++
  List.replicate 489 0

/-- A chain of 11 compression pointers laid out from offset 30, the last one
landing on a terminator at offset 52; decoding starts at position 30. -/
def c3_buf11b : List Nat :=
  List.replicate 30 0 ++ (List.range 11).flatMap (fun i => [192, 32 + 2 * i]) ++
  List.replicate 460 0

/-- Claim C3 amended: the decoder fails with MaxJumpsExceeded exactly when a
non-terminator byte is reached after more than 10 hops: a chain of 12 hops
fails with MaxJumpsExceeded, a chain of exactly 10 hops (with a valid label)
succeeds, and a chain of exactly 11 hops that lands directly on the zero
terminator also succeeds. -/
theorem c3_jump_bound_behaviour :
    UdpPacket.read_domain_name ⟨c3_buf12, 0⟩ = .err .MaxJumpsExceeded ∧
    UdpPacket.read_domain_name ⟨c3_buf10, 0⟩ =
      .ok (⟨[1, 97, 0]⟩, ⟨c3_buf10, 2⟩) ∧
    UdpPacket.read_domain_name ⟨c3_buf11b, 30⟩ = .ok (⟨[0]⟩, ⟨c3_buf11b, 32⟩) := by
  decide

/-- The bytes actually produced by writing the default question ("example.co"
after the unconditional pop, then type A and class IN). -/
def c5_question_buf : List Nat :=
  [7, 101, 120, 97, 109, 112, 108, 101, 2, 99, 111, 0, 0, 1, 0, 1] ++
  List.replicate 496 0

/-- The bytes actually produced by writing the default message (header with
question count 1 and recursion desired, then the default question). -/
def c5_message_buf : List Nat :=
  [0, 0, 1, 0, 0, 1, 0, 0, 0, 0, 0, 0,
   7, 101, 120, 97, 109, 112, 108, 101, 2, 99, 111, 0, 0, 1, 0, 1] ++
  List.replicate 484 0

/-- Claim C5: encoding the default question for TEST_DOMAIN ("example.com")
does not produce the claimed bytes 7,"example",3,"com",0 with cursor 17: the
unconditional pop in DomainName::from_str drops the final m, so the wire form
is 7,"example",2,"co",0 followed by type 0,1 and class 0,1, the cursor after
the question write is 16, and after the full header+question write 28. This
is the behaviour the repository's own tests contradict. -/
theorem c5_default_question_encoding :
    DomainName.from_str TEST_DOMAIN =
      .ok ⟨[7, 101, 120, 97, 109, 112, 108, 101, 2, 99, 111, 0]⟩ ∧
    Res.bind DnsQuestion.default_question
      (fun q => q.write_to_udp_packet UdpPacket.new) = .ok ⟨c5_question_buf, 16⟩ ∧
    Res.bind DnsMessage.default_message
      (fun m => m.write_to_udp_packet UdpPacket.new) = .ok ⟨c5_message_buf, 28⟩ := by
  decide

/-- A header whose flag word carries opcode 1 (bytes 2-3 are 0x08 0x00). -/
def c7_buf_opcode : List Nat := [0, 0, 8, 0] ++ List.replicate 508 0

/-- Claim C7 counterexample: reading a header whose 4-bit opcode field holds
the unknown value 1 panics (unwrap of a failed conversion) instead of
round-tripping it through an unknown representation. -/
theorem c7_unknown_opcode_panics :
    DnsHeader.read_from_udp_packet ⟨c7_buf_opcode, 0⟩ = .panicked := by
  decide

/-- A header whose flag word carries response code 6. -/
def c7_buf_rcode : List Nat := [0, 0, 0, 6] ++ List.replicate 508 0

/-- A question (empty name) whose 16-bit type value is 3. -/
def c7_buf_qtype : List Nat := [0, 0, 3, 0, 1] ++ List.replicate 507 0

/-- A question (empty name) with valid type 1 and 16-bit class value 3. -/
def c7_buf_qclass : List Nat := [0, 0, 1, 0, 3] ++ List.replicate 507 0

/-- Claim C7 amended: the generated enums are closed and the decoders unwrap
their conversions, so unknown numeric wire values abort decoding with a
panic: a response-code value of 6, a question type value of 3, and a question
class value of 3 each panic instead of being preserved as opaque numerics. -/
theorem c7_unknown_values_abort_decoding :
    DnsHeader.read_from_udp_packet ⟨c7_buf_rcode, 0⟩ = .panicked ∧
    DnsQuestion.read_from_udp_packet ⟨c7_buf_qtype, 0⟩ = .panicked ∧
    DnsQuestion.read_from_udp_packet ⟨c7_buf_qclass, 0⟩ = .panicked := by
  decide

/-- A record (empty name) whose 16-bit type value is 999 (bytes 3, 231). -/
def c8_buf : List Nat := [0, 3, 231] ++ List.replicate 509 0

/-- Claim C8 counterexample: decoding a record whose type value is the
unrecognized 999 panics at the unwrap of the type conversion - the declared
RDATA length is never even reached, so no opaque byte capture occurs. -/
theorem c8_unknown_type_999_panics :
    DnsRecord.read_from_udp_packet ⟨c8_buf, 0⟩ = .panicked := by
  decide

/-- A record (empty name) whose 16-bit type value is 4, also unrecognized. -/
def c8_buf2 : List Nat := [0, 0, 4] ++ List.replicate 509 0

/-- Claim C8 amended: records with unrecognized type values do not round-trip:
decoding panics on the unwrap of the type conversion, and the only
unknown-side encoding path, RecordData::Unknown, emits the fixed 21 bytes of
the string "Unknown/unimplemented" regardless of any declared RDATA length. -/
theorem c8_unknown_rdata_not_opaque :
    DnsRecord.read_from_udp_packet ⟨c8_buf2, 0⟩ = .panicked ∧
    RecordData.as_bytes .Unknown =
      [85, 110, 107, 110, 111, 119, 110, 47, 117, 110, 105, 109, 112, 108,
       101, 109, 101, 110, 116, 101, 100] ∧
    (RecordData.as_bytes .Unknown).length = 21 := by
  decide

/-
Claims C6 and C10: DomainName::from_str validation and the unconditional pop.
-/

/-- The full encode-a-name-into-a-packet pipeline as the callers compose it:
construct the DomainName from the string (all validation), then write its
bytes; a failing construction short-circuits before the packet is touched. -/
def encode_domain_name_to_packet (s : String) (p : UdpPacket)
    (margin : Option Nat) : Res UdpPacket :=
  Res.bind (DomainName.from_str s) (fun d => p.write_domain_name d margin)

/-- The encoding pipeline of DomainName::from_str applied to an explicit char
list, i.e. the source's behaviour after its s.pop() call: length check, split
on dots, per-label length checks and encoding, zero terminator. -/
def encode_dotted_name (t : List Char) : Res DomainName :=
  if (utf8Bytes t).length + 2 > NAME_MAX_LENGTH_BYTES then
    .err (.MalformedDomainName .NameTooLong)
  else
    match encode_labels (splitDots t) with
    | .ok parts => .ok ⟨(parts ++ [[0]]).flatten⟩
    | .err e => .err e
    | .panicked => .panicked

theorem encode_labels_err_of_long_label :
    ∀ (labels : List (List Char)),
    (∃ l ∈ labels, (utf8Bytes l).length > LABEL_MAX_LENGTH_BYTES) →
    encode_labels labels = .err (.MalformedDomainName .LabelTooLong) := by
  intro labels
  induction labels with
  | nil => rintro ⟨l, hmem, hlen⟩; cases hmem
  | cons label rest ih =>
    rintro ⟨l, hmem, hlen⟩
    simp only [encode_labels]
    by_cases hlab : (utf8Bytes label).length > LABEL_MAX_LENGTH_BYTES
    · rw [if_pos hlab]
    · rw [if_neg hlab]
      have hrest : ∃ m ∈ rest, (utf8Bytes m).length > LABEL_MAX_LENGTH_BYTES := by
        rcases List.mem_cons.mp hmem with heq | hmem2
        · exact absurd hlen (by rw [heq]; exact hlab)
        · exact ⟨l, hmem2, hlen⟩
      rw [ih hrest]

/-- Claim C6 amended: the name actually validated is the input with its final
character removed. For that name, the total-length check (byte length + 2
against 255) runs first and rejects with NameTooLong; only otherwise does a
label longer than 63 bytes reject with LabelTooLong; and validation lives in
DomainName construction, before anything touches a packet: a failing name
propagates its error through the encode pipeline with no write. -/
theorem c6_validation_order_and_atomicity (s : String) (p : UdpPacket)
    (margin : Option Nat) :
    ((utf8Bytes s.data.dropLast).length + 2 > NAME_MAX_LENGTH_BYTES →
      DomainName.from_str s = .err (.MalformedDomainName .NameTooLong)) ∧
    ((utf8Bytes s.data.dropLast).length + 2 ≤ NAME_MAX_LENGTH_BYTES →
      (∃ l ∈ splitDots s.data.dropLast,
        (utf8Bytes l).length > LABEL_MAX_LENGTH_BYTES) →
      DomainName.from_str s = .err (.MalformedDomainName .LabelTooLong)) ∧
    (∀ e, DomainName.from_str s = .err e →
      encode_domain_name_to_packet s p margin = .err e) := by
  refine ⟨?_, ?_, ?_⟩
  · intro hlong
    simp only [DomainName.from_str]
    rw [if_pos hlong]
  · intro hshort hlabel
    simp only [DomainName.from_str]
    rw [if_neg (by omega), encode_labels_err_of_long_label _ hlabel]
  · intro e herr
    simp only [encode_domain_name_to_packet]
    rw [herr, Res.bind_err]

/-- Witness for c6_validation_order_and_atomicity: 301 repeated characters
(popped to 300, encoded length 302) trip NameTooLong; 65 repeated characters
(popped to a single 64-byte label of encoded length 66) trip LabelTooLong;
and the NameTooLong failure propagates unchanged through the packet-encoding
pipeline. -/
theorem c6_validation_witness :
    DomainName.from_str (String.mk (List.replicate 301 'a')) =
      .err (.MalformedDomainName .NameTooLong) ∧
    DomainName.from_str (String.mk (List.replicate 65 'a')) =
      .err (.MalformedDomainName .LabelTooLong) ∧
    encode_domain_name_to_packet (String.mk (List.replicate 301 'a'))
      UdpPacket.new none = .err (.MalformedDomainName .NameTooLong) :=
  ⟨(c6_validation_order_and_atomicity (String.mk (List.replicate 301 'a'))
      UdpPacket.new none).1 (by decide),
   (c6_validation_order_and_atomicity (String.mk (List.replicate 65 'a'))
      UdpPacket.new none).2.1 (by decide)
      ⟨List.replicate 64 'a', by decide, by decide⟩,
   (c6_validation_order_and_atomicity (String.mk (List.replicate 301 'a'))
      UdpPacket.new none).2.2 _
     ((c6_validation_order_and_atomicity (String.mk (List.replicate 301 'a'))
        UdpPacket.new none).1 (by decide))⟩

/-- Claim C6 counterexample: the claim's clauses fail on the code as stated
over the input string. An input of 64 repeated characters has a 64-byte label
(over the limit) yet is accepted, because the final character is popped
before validation; and an input of 301 repeated characters, whose (popped)
300-byte label exceeds 63 bytes, is rejected with NameTooLong rather than
the claimed LabelTooLong, because the total-length check runs first. -/
theorem c6_limits_fail_as_stated :
    DomainName.from_str (String.mk (List.replicate 64 'a')) =
      .ok ⟨63 :: List.replicate 63 97 ++ [0]⟩ ∧
    DomainName.from_str (String.mk (List.replicate 301 'a')) =
      .err (.MalformedDomainName .NameTooLong) := by
  decide

/-- Claim C10: DomainName::from_str removes the final character of its input
before splitting and encoding - it equals the no-pop pipeline applied to the
input minus its last character - so "example.com" encodes to the wire form of
"example.co" (7,"example",2,"co",0), not to the wire form of the full input
(7,"example",3,"com",0). -/
theorem c10_from_str_pops_last_char :
    (∀ s : String, DomainName.from_str s = encode_dotted_name s.data.dropLast) ∧
    DomainName.from_str "example.com" =
      .ok ⟨[7, 101, 120, 97, 109, 112, 108, 101, 2, 99, 111, 0]⟩ ∧
    encode_dotted_name "example.com".data =
      .ok ⟨[7, 101, 120, 97, 109, 112, 108, 101, 3, 99, 111, 109, 0]⟩ :=
  ⟨fun _ => rfl, by decide, by decide⟩

/-
Claim C4: cursor accounting after a successful name decode.
-/

/-- The number of literal bytes a decode starting at position consumes before
its first compression jump, defined by a direct scan that is independent of
the decoder's bookkeeping: walk the labels from position, summing each
label's length byte plus its payload, until a pointer byte (some sum) or the
zero terminator (none: no jump ever happens) is reached; none is also
returned where the decode loop would stop with an error or a panic before
reaching any pointer. -/
def literal_bytes_before_first_jump (buffer : List Nat) (position acc : Nat) :
    Option Nat :=
  if hpos : position < buffer.length then
    let byte := buffer[position]
    if byte = 0 then none
    else if byte &&& 0xc0 = 0xc0 then some acc
    else
      let length := byte + 1
      if position + length ≥ UDP_PACKET_MAX_SIZE_BYTES then none
      else if position + length > buffer.length then none
      else literal_bytes_before_first_jump buffer (position + length) (acc + length)
  else none
termination_by buffer.length - position
decreasing_by simp only [UDP_PACKET_MAX_SIZE_BYTES] at *; omega

theorem loop_scan_correspondence : ∀ (fuel : Nat) (buffer : List Nat)
    (values : List (List Nat)) (num_jumps : Nat) (has_jumped : Bool)
    (position nb : Nat) (v : List (List Nat)) (hj : Bool) (nb2 : Nat),
    read_domain_name_loop buffer fuel values num_jumps has_jumped position nb =
      some (.ok (v, hj, nb2)) →
    (has_jumped = false →
      (hj = true → literal_bytes_before_first_jump buffer position nb = some nb2) ∧
      (hj = false → literal_bytes_before_first_jump buffer position nb = none)) ∧
    (has_jumped = true → nb2 = nb ∧ hj = true) := by
  intro fuel
  induction fuel with
  | zero =>
    intro buffer values nj hjp pos nb v hj nb2 h
    simp [read_domain_name_loop] at h
  | succ fuel ih =>
    intro buffer values nj hjp pos nb v hj nb2 h
    rw [read_domain_name_loop] at h
    by_cases hpos : pos < buffer.length
    · rw [dif_pos hpos] at h
      by_cases hzero : buffer[pos] = 0
      · rw [if_pos hzero] at h
        simp only [Option.some.injEq, Res.ok.injEq, Prod.mk.injEq] at h
        obtain ⟨hv, hhj, hnb⟩ := h
        constructor
        · intro hjpf
          constructor
          · intro hjt; rw [hjpf] at hhj; rw [hjt] at hhj; simp at hhj
          · intro _
            rw [literal_bytes_before_first_jump, dif_pos hpos, if_pos hzero]
        · intro hjpt
          rw [hjpt] at hhj
          exact ⟨hnb.symm, hhj.symm⟩
      · rw [if_neg hzero] at h
        by_cases hguard : nj > MAX_JUMPS
        · rw [if_pos hguard] at h; simp at h
        · rw [if_neg hguard] at h
          by_cases hptr : buffer[pos] &&& 0xc0 = 0xc0
          · rw [if_pos hptr] at h
            by_cases hpos1 : pos + 1 < buffer.length
            · rw [dif_pos hpos1] at h
              have hrec := (ih _ _ _ _ _ _ _ _ _ h).2 rfl
              constructor
              · intro _
                constructor
                · intro _
                  rw [literal_bytes_before_first_jump, dif_pos hpos,
                    if_neg hzero, if_pos hptr, hrec.1]
                · intro hjf; rw [hjf] at hrec; simp at hrec
              · intro _
                exact hrec
            · rw [dif_neg hpos1] at h; simp at h
          · rw [if_neg hptr] at h
            by_cases hlab : buffer[pos] + 1 > LABEL_MAX_LENGTH_BYTES
            · rw [if_pos hlab] at h; simp at h
            · rw [if_neg hlab] at h
              by_cases hoob : pos + (buffer[pos] + 1) ≥ UDP_PACKET_MAX_SIZE_BYTES
              · rw [if_pos hoob] at h; simp at h
              · rw [if_neg hoob] at h
                by_cases hsl : pos + (buffer[pos] + 1) > buffer.length
                · rw [if_pos hsl] at h; simp at h
                · rw [if_neg hsl] at h
                  have hrec := ih _ _ _ _ _ _ _ _ _ h
                  constructor
                  · intro hjpf
                    subst hjpf
                    have h1 := hrec.1 rfl
                    constructor
                    · intro hjt
                      rw [literal_bytes_before_first_jump, dif_pos hpos,
                        if_neg hzero, if_neg hptr, if_neg hoob, if_neg hsl]
                      exact h1.1 hjt
                    · intro hjf
                      rw [literal_bytes_before_first_jump, dif_pos hpos,
                        if_neg hzero, if_neg hptr, if_neg hoob, if_neg hsl]
                      exact h1.2 hjf
                  · intro hjpt
                    subst hjpt
                    exact hrec.2 rfl
    · rw [dif_neg hpos] at h; simp at h

/-- Claim C4: for every successful read_domain_name call, the cursor advances
by the full decoded length including the terminator when no compression jump
occurred (the pre-jump scan reaches the terminator: none), and by the number
of literal bytes consumed before the first jump plus exactly 2 when one or
more jumps occurred (the scan reaches a pointer: some count), regardless of
the expanded name's length. -/
theorem c4_cursor_accounting (buffer : List Nat) (pos : Nat) (d : DomainName)
    (p2 : UdpPacket)
    (h : UdpPacket.read_domain_name ⟨buffer, pos⟩ = .ok (d, p2)) :
    p2.position =
      match literal_bytes_before_first_jump buffer pos 0 with
      | some nb => pos + (nb + 2)
      | none => pos + d.bytes.length := by
  rw [UdpPacket.read_domain_name] at h
  rcases hr : read_domain_name_loop buffer (read_domain_name_fuel buffer) [] 0
      false pos 0 with _ | r
  · rw [hr] at h; simp at h
  · rw [hr] at h
    cases r with
    | err e => simp at h
    | panicked => simp at h
    | ok a =>
      obtain ⟨values, hj, nb⟩ := a
      dsimp only at h
      by_cases hlen : (values.flatten ++ [0]).length > NAME_MAX_LENGTH_BYTES
      · rw [if_pos hlen] at h
        by_cases hu : utf8Valid (values.flatten ++ [0])
        · rw [if_pos hu] at h; simp at h
        · rw [if_neg hu] at h; simp at h
      · rw [if_neg hlen] at h
        simp only [Res.ok.injEq, Prod.mk.injEq] at h
        obtain ⟨hd, hp⟩ := h
        have hcorr := (loop_scan_correspondence _ _ _ _ _ _ _ _ _ _ hr).1 rfl
        cases hj with
        | true =>
          rw [hcorr.1 rfl]
          rw [← hp]
        | false =>
          rw [hcorr.2 rfl]
          rw [← hp, ← hd]

/-- A name starting with a 3-byte label, then a pointer to a 1-byte label. -/
def c4_buf : List Nat :=
  [3, 97, 98, 99, 192, 8, 0, 0, 1, 100, 0] ++ List.replicate 501 0

/-- Witness for c4_cursor_accounting: decoding c4_buf from position 0 consumes
the 4 literal bytes of the first label and a 2-byte pointer, so the cursor
lands on 6 although the expanded name has 7 bytes. -/
theorem c4_cursor_witness :
    UdpPacket.read_domain_name ⟨c4_buf, 0⟩ =
      .ok (⟨[3, 97, 98, 99, 1, 100, 0]⟩, ⟨c4_buf, 6⟩) ∧
    (⟨c4_buf, 6⟩ : UdpPacket).position =
      match literal_bytes_before_first_jump c4_buf 0 0 with
      | some nb => 0 + (nb + 2)
      | none => 0 + (⟨[3, 97, 98, 99, 1, 100, 0]⟩ : DomainName).bytes.length :=
  ⟨by decide, c4_cursor_accounting c4_buf 0 _ _ (by decide)⟩

/-
Claim C9: header round-trip.
-/

@[simp] theorem u16_to_u8_length (n : Nat) : (u16_to_u8 n).length = 2 := rfl

theorem storeSlice_eq : ∀ (slice buffer : List Nat) (pos : Nat),
    pos + slice.length ≤ buffer.length →
    storeSlice buffer pos slice =
      buffer.take pos ++ slice ++ buffer.drop (pos + slice.length) := by
  intro slice
  induction slice with
  | nil => intro buffer pos hle; simp [storeSlice]
  | cons b rest ih =>
    intro buffer pos hle
    simp only [List.length_cons] at hle
    have hpos : pos < buffer.length := by omega
    have lenA : (List.take pos buffer).length = pos := by
      rw [List.length_take]; omega
    have hT : List.take (pos + 1)
        (List.take pos buffer ++ b :: List.drop (pos + 1) buffer) =
        List.take pos buffer ++ [b] := by
      rw [List.take_append_eq_append_take,
        List.take_of_length_le (by rw [lenA]; omega), lenA]
      have h3 : pos + 1 - pos = 1 := by omega
      rw [h3]
      simp
    have hD : List.drop (pos + 1 + rest.length)
        (List.take pos buffer ++ b :: List.drop (pos + 1) buffer) =
        List.drop (pos + (rest.length + 1)) buffer := by
      rw [List.drop_append_eq_append_drop,
        List.drop_eq_nil_of_le (by rw [lenA]; omega), lenA]
      have h4 : pos + 1 + rest.length - pos = rest.length + 1 := by omega
      rw [h4]
      simp only [List.drop_succ_cons, List.drop_drop, List.nil_append]
      have h5 : pos + 1 + rest.length = pos + (rest.length + 1) := by omega
      rw [h5]
    rw [storeSlice, ih (buffer.set pos b) (pos + 1) (by simp; omega)]
    rw [List.set_eq_take_append_cons_drop, if_pos hpos, hT, hD]
    simp

theorem u16_join_split (n : Nat) (h : n < 65536) :
    (((n &&& 0xff00) >>> 8) <<< 8) ||| (n &&& 0xff) = n := by
  have e1 : n &&& 0xff = n % 256 := by
    have e := Nat.and_pow_two_sub_one_eq_mod n 8
    norm_num at e
    exact e
  have e2 : (n &&& 0xff00) >>> 8 = (n >>> 8) &&& 0xff := by
    apply Nat.eq_of_testBit_eq
    intro i
    rw [show (0xff00 : Nat) = 0xff <<< 8 by decide]
    simp only [Nat.testBit_shiftRight, Nat.testBit_and, Nat.testBit_shiftLeft,
      Nat.add_sub_cancel_left]
    rw [decide_eq_true (show 8 + i ≥ 8 from Nat.le_add_right 8 i)]
    simp only [Bool.true_and]
  have e3 : (n >>> 8) &&& 0xff = n >>> 8 := by
    have hlt : n >>> 8 < 2 ^ 8 := by
      rw [Nat.shiftRight_eq_div_pow]
      omega
    have e := Nat.and_pow_two_sub_one_of_lt_two_pow hlt
    norm_num at e
    exact e
  rw [e1, e2, e3, Nat.shiftLeft_eq, Nat.shiftRight_eq_div_pow]
  have hmod : n % 256 < 2 ^ 8 := by omega
  have e4 := Nat.mul_add_lt_is_or hmod (n / 2 ^ 8)
  rw [mul_comm (n / 2 ^ 8) (2 ^ 8)]
  norm_num at e4 ⊢
  omega

theorem flags_packing : ∀ rcv < 6, ∀ z < 8, ∀ (ra rd tc aa resp : Bool),
    (rcv ||| (z <<< 4) ||| (bool_to_u16 ra <<< 7) ||| (bool_to_u16 rd <<< 8) |||
      (bool_to_u16 tc <<< 9) ||| (bool_to_u16 aa <<< 10) |||
      (bool_to_u16 resp <<< 15)) < 65536 ∧
    ((rcv ||| (z <<< 4) ||| (bool_to_u16 ra <<< 7) ||| (bool_to_u16 rd <<< 8) |||
      (bool_to_u16 tc <<< 9) ||| (bool_to_u16 aa <<< 10) |||
      (bool_to_u16 resp <<< 15)) &&& 0x8000) >>> 15 = bool_to_u16 resp ∧
    ((rcv ||| (z <<< 4) ||| (bool_to_u16 ra <<< 7) ||| (bool_to_u16 rd <<< 8) |||
      (bool_to_u16 tc <<< 9) ||| (bool_to_u16 aa <<< 10) |||
      (bool_to_u16 resp <<< 15)) &&& 0x7800) >>> 11 = 0 ∧
    ((rcv ||| (z <<< 4) ||| (bool_to_u16 ra <<< 7) ||| (bool_to_u16 rd <<< 8) |||
      (bool_to_u16 tc <<< 9) ||| (bool_to_u16 aa <<< 10) |||
      (bool_to_u16 resp <<< 15)) &&& 0x400) >>> 10 = bool_to_u16 aa ∧
    ((rcv ||| (z <<< 4) ||| (bool_to_u16 ra <<< 7) ||| (bool_to_u16 rd <<< 8) |||
      (bool_to_u16 tc <<< 9) ||| (bool_to_u16 aa <<< 10) |||
      (bool_to_u16 resp <<< 15)) &&& 0x200) >>> 9 = bool_to_u16 tc ∧
    ((rcv ||| (z <<< 4) ||| (bool_to_u16 ra <<< 7) ||| (bool_to_u16 rd <<< 8) |||
      (bool_to_u16 tc <<< 9) ||| (bool_to_u16 aa <<< 10) |||
      (bool_to_u16 resp <<< 15)) &&& 0x100) >>> 8 = bool_to_u16 rd ∧
    ((rcv ||| (z <<< 4) ||| (bool_to_u16 ra <<< 7) ||| (bool_to_u16 rd <<< 8) |||
      (bool_to_u16 tc <<< 9) ||| (bool_to_u16 aa <<< 10) |||
      (bool_to_u16 resp <<< 15)) &&& 0x80) >>> 7 = bool_to_u16 ra ∧
    ((rcv ||| (z <<< 4) ||| (bool_to_u16 ra <<< 7) ||| (bool_to_u16 rd <<< 8) |||
      (bool_to_u16 tc <<< 9) ||| (bool_to_u16 aa <<< 10) |||
      (bool_to_u16 resp <<< 15)) &&& 0x70) >>> 4 = z ∧
    ((rcv ||| (z <<< 4) ||| (bool_to_u16 ra <<< 7) ||| (bool_to_u16 rd <<< 8) |||
      (bool_to_u16 tc <<< 9) ||| (bool_to_u16 aa <<< 10) |||
      (bool_to_u16 resp <<< 15)) &&& 0xf) = rcv := by
  decide

theorem response_code_try_into_lt (rc : ResponseCode) : rc.try_into < 6 := by
  cases rc <;> decide

theorem response_code_roundtrip (rc : ResponseCode) :
    ResponseCode.try_from rc.try_into = some rc := by
  cases rc <;> rfl

theorem u16_to_bool_bool_to_u16 (b : Bool) :
    u16_to_bool (bool_to_u16 b) = .ok b := by
  cases b <;> rfl

theorem read_u16_at (pre post : List Nat) (b0 b1 : Nat)
    (hlen : pre.length + 1 < 512) :
    UdpPacket.read_u16 ⟨pre ++ b0 :: b1 :: post, pre.length⟩ =
      .ok ((b0 <<< 8) ||| b1, ⟨pre ++ b0 :: b1 :: post, pre.length + 2⟩) := by
  have hb0 : getRaw (pre ++ b0 :: b1 :: post) pre.length = .ok b0 := by
    rw [getRaw, dif_pos (by simp)]
    congr 1
    rw [List.getElem_append, dif_neg (by omega)]
    simp
  have hb1 : getRaw (pre ++ b0 :: b1 :: post) (pre.length + 1) = .ok b1 := by
    rw [getRaw, dif_pos (by simp)]
    congr 1
    rw [List.getElem_append, dif_neg (by omega)]
    simp
  rw [UdpPacket.read_u16, if_neg (by simp only [UDP_PACKET_MAX_SIZE_BYTES]; omega)]
  rw [hb0]
  simp only [Res.monad_bind_eq, Res.bind_ok]
  rw [hb1]
  simp only [Res.monad_bind_eq, Res.bind_ok, Res.pure_eq]

theorem read_u16_pair (pre post : List Nat) (v : Nat) (hv : v < 65536)
    (hlen : pre.length + 1 < 512) :
    UdpPacket.read_u16 ⟨pre ++ (u16_to_u8 v ++ post), pre.length⟩ =
      .ok (v, ⟨pre ++ (u16_to_u8 v ++ post), pre.length + 2⟩) := by
  have h := read_u16_at pre post ((v &&& 0xff00) >>> 8) (v &&& 0xff) hlen
  rw [u16_join_split v hv] at h
  simpa only [u16_to_u8, List.cons_append, List.nil_append] using h

theorem header_write_eval (id qd an au ad : Nat) (resp aa tc rd ra : Bool)
    (z : Nat) (rc : ResponseCode) :
    DnsHeader.write_to_udp_packet
      ⟨id, resp, .QUERY, aa, tc, rd, ra, z, rc, qd, an, au, ad⟩ UdpPacket.new =
      .ok ⟨u16_to_u8 id ++ (u16_to_u8
            (rc.try_into ||| (z <<< 4) ||| (bool_to_u16 ra <<< 7) |||
             (bool_to_u16 rd <<< 8) ||| (bool_to_u16 tc <<< 9) |||
             (bool_to_u16 aa <<< 10) ||| (bool_to_u16 resp <<< 15)) ++
          (u16_to_u8 qd ++ (u16_to_u8 an ++ (u16_to_u8 au ++
            (u16_to_u8 ad ++ List.replicate 500 0))))), 12⟩ := by
  simp [DnsHeader.write_to_udp_packet, DNS_HEADER_LENGTH_BYTES, UdpPacket.new,
    UdpPacket.write_from_slice, UDP_PACKET_MAX_SIZE_BYTES, storeSlice_eq,
    OperationCode.try_into, List.append_assoc]

theorem header_read_eval (id qd an au ad : Nat) (resp aa tc rd ra : Bool)
    (z : Nat) (rc : ResponseCode) (hid : id < 65536) (hz : z < 8)
    (hqd : qd < 65536) (han : an < 65536) (hau : au < 65536) (had : ad < 65536)
    (rest : List Nat) :
    DnsHeader.read_from_udp_packet
      ⟨u16_to_u8 id ++ (u16_to_u8
          (rc.try_into ||| (z <<< 4) ||| (bool_to_u16 ra <<< 7) |||
           (bool_to_u16 rd <<< 8) ||| (bool_to_u16 tc <<< 9) |||
           (bool_to_u16 aa <<< 10) ||| (bool_to_u16 resp <<< 15)) ++
        (u16_to_u8 qd ++ (u16_to_u8 an ++ (u16_to_u8 au ++
          (u16_to_u8 ad ++ rest))))), 0⟩ =
      .ok (⟨id, resp, .QUERY, aa, tc, rd, ra, z, rc, qd, an, au, ad⟩,
        ⟨u16_to_u8 id ++ (u16_to_u8
          (rc.try_into ||| (z <<< 4) ||| (bool_to_u16 ra <<< 7) |||
           (bool_to_u16 rd <<< 8) ||| (bool_to_u16 tc <<< 9) |||
           (bool_to_u16 aa <<< 10) ||| (bool_to_u16 resp <<< 15)) ++
        (u16_to_u8 qd ++ (u16_to_u8 an ++ (u16_to_u8 au ++
          (u16_to_u8 ad ++ rest))))), 12⟩) := by
  obtain ⟨hlt, hresp, hoc, haa, htc, hrd, hra, hz4, hrc⟩ :=
    flags_packing rc.try_into (response_code_try_into_lt rc) z hz ra rd tc aa resp
  have r0 := read_u16_pair [] (u16_to_u8
      (rc.try_into ||| (z <<< 4) ||| (bool_to_u16 ra <<< 7) |||
       (bool_to_u16 rd <<< 8) ||| (bool_to_u16 tc <<< 9) |||
       (bool_to_u16 aa <<< 10) ||| (bool_to_u16 resp <<< 15)) ++
      (u16_to_u8 qd ++ (u16_to_u8 an ++ (u16_to_u8 au ++
        (u16_to_u8 ad ++ rest))))) id hid (by simp)
  have r1 := read_u16_pair (u16_to_u8 id)
      (u16_to_u8 qd ++ (u16_to_u8 an ++ (u16_to_u8 au ++
        (u16_to_u8 ad ++ rest))))
      (rc.try_into ||| (z <<< 4) ||| (bool_to_u16 ra <<< 7) |||
       (bool_to_u16 rd <<< 8) ||| (bool_to_u16 tc <<< 9) |||
       (bool_to_u16 aa <<< 10) ||| (bool_to_u16 resp <<< 15)) hlt (by simp)
  have r2 := read_u16_pair (u16_to_u8 id ++ u16_to_u8
      (rc.try_into ||| (z <<< 4) ||| (bool_to_u16 ra <<< 7) |||
       (bool_to_u16 rd <<< 8) ||| (bool_to_u16 tc <<< 9) |||
       (bool_to_u16 aa <<< 10) ||| (bool_to_u16 resp <<< 15)))
      (u16_to_u8 an ++ (u16_to_u8 au ++ (u16_to_u8 ad ++ rest)))
      qd hqd (by simp)
  have r3 := read_u16_pair ((u16_to_u8 id ++ u16_to_u8
      (rc.try_into ||| (z <<< 4) ||| (bool_to_u16 ra <<< 7) |||
       (bool_to_u16 rd <<< 8) ||| (bool_to_u16 tc <<< 9) |||
       (bool_to_u16 aa <<< 10) ||| (bool_to_u16 resp <<< 15))) ++ u16_to_u8 qd)
      (u16_to_u8 au ++ (u16_to_u8 ad ++ rest))
      an han (by simp)
  have r4 := read_u16_pair (((u16_to_u8 id ++ u16_to_u8
      (rc.try_into ||| (z <<< 4) ||| (bool_to_u16 ra <<< 7) |||
       (bool_to_u16 rd <<< 8) ||| (bool_to_u16 tc <<< 9) |||
       (bool_to_u16 aa <<< 10) ||| (bool_to_u16 resp <<< 15))) ++ u16_to_u8 qd)
        ++ u16_to_u8 an)
      (u16_to_u8 ad ++ rest)
      au hau (by simp)
  have r5 := read_u16_pair ((((u16_to_u8 id ++ u16_to_u8
      (rc.try_into ||| (z <<< 4) ||| (bool_to_u16 ra <<< 7) |||
       (bool_to_u16 rd <<< 8) ||| (bool_to_u16 tc <<< 9) |||
       (bool_to_u16 aa <<< 10) ||| (bool_to_u16 resp <<< 15))) ++ u16_to_u8 qd)
        ++ u16_to_u8 an) ++ u16_to_u8 au)
      rest
      ad had (by simp)
  simp only [List.nil_append, List.length_nil, List.length_append,
    u16_to_u8_length, List.append_assoc, Nat.zero_add, Nat.reduceAdd] at r0 r1 r2 r3 r4 r5
  rw [DnsHeader.read_from_udp_packet]
  rw [r0]
  simp only [Res.monad_bind_eq, Res.bind_ok]
  rw [r1]
  simp only [Res.monad_bind_eq, Res.bind_ok]
  rw [hresp, u16_to_bool_bool_to_u16]
  simp only [Res.monad_bind_eq, Res.bind_ok]
  rw [hoc]
  rw [OperationCode.try_from]
  rw [if_pos rfl]
  simp only [unwrapOption, Res.monad_bind_eq, Res.bind_ok]
  rw [haa, u16_to_bool_bool_to_u16]
  simp only [Res.monad_bind_eq, Res.bind_ok]
  rw [htc, u16_to_bool_bool_to_u16]
  simp only [Res.monad_bind_eq, Res.bind_ok]
  rw [hrd, u16_to_bool_bool_to_u16]
  simp only [Res.monad_bind_eq, Res.bind_ok]
  rw [hra, u16_to_bool_bool_to_u16]
  simp only [Res.monad_bind_eq, Res.bind_ok]
  rw [hrc, response_code_roundtrip]
  simp only [unwrapOption, Res.monad_bind_eq, Res.bind_ok]
  rw [r2]
  simp only [Res.monad_bind_eq, Res.bind_ok]
  rw [r3]
  simp only [Res.monad_bind_eq, Res.bind_ok]
  rw [r4]
  simp only [Res.monad_bind_eq, Res.bind_ok]
  rw [r5]
  simp only [Res.monad_bind_eq, Res.bind_ok, Res.pure_eq]
  rw [hz4]

/-- Claim C9: for every valid DnsHeader (z fits in 3 bits, id and the four
counts fit in 16 bits, opcode and response code drawn from the representable
enum values), writing it at position 0 of a fresh packet succeeds, advances
the cursor to 12, and reading a header back from position 0 returns an equal
header, consuming exactly 12 bytes. -/
theorem c9_header_roundtrip (h : DnsHeader) (hid : h.id < 65536) (hz : h.z < 8)
    (hqd : h.question_count < 65536) (han : h.answer_count < 65536)
    (hau : h.authority_count < 65536) (had : h.additional_count < 65536) :
    ∃ p : UdpPacket, DnsHeader.write_to_udp_packet h UdpPacket.new = .ok p ∧
      p.position = 12 ∧
      DnsHeader.read_from_udp_packet ⟨p.buffer, 0⟩ = .ok (h, ⟨p.buffer, 12⟩) := by
  obtain ⟨id, resp, oc, aa, tc, rd, ra, z, rc, qd, an, au, ad⟩ := h
  cases oc
  dsimp only at hid hz hqd han hau had
  exact ⟨_, header_write_eval id qd an au ad resp aa tc rd ra z rc, rfl,
    header_read_eval id qd an au ad resp aa tc rd ra z rc hid hz hqd han hau had
      (List.replicate 500 0)⟩

/-- A concrete valid header exercising nonzero flags, z and counts. -/
def c9_hdr : DnsHeader :=
  ⟨65, true, .QUERY, false, true, true, false, 5, .REFUSED, 1, 2, 3, 4⟩

/-- Witness for c9_header_roundtrip at the concrete header c9_hdr. -/
theorem c9_header_roundtrip_witness :
    c9_hdr.id < 65536 ∧ c9_hdr.z < 8 ∧ c9_hdr.question_count < 65536 ∧
    c9_hdr.answer_count < 65536 ∧ c9_hdr.authority_count < 65536 ∧
    c9_hdr.additional_count < 65536 ∧
    (∃ p : UdpPacket, DnsHeader.write_to_udp_packet c9_hdr UdpPacket.new = .ok p ∧
      p.position = 12 ∧
      DnsHeader.read_from_udp_packet ⟨p.buffer, 0⟩ = .ok (c9_hdr, ⟨p.buffer, 12⟩)) :=
  ⟨by decide, by decide, by decide, by decide, by decide, by decide,
   c9_header_roundtrip c9_hdr (by decide) (by decide) (by decide) (by decide)
     (by decide) (by decide)⟩

end Dns
